import Mathlib

/-! dynamic-client: a shallow embedding of `main.go`

The program wires a Kubernetes dynamic client (credential loading, a token
bucket rate limiter, a request printing proxy hook) and performs one list call.

Everything the program calls in `client-go`, `clientcmd`, `klog` and `flag` is
an external collaborator.  Those calls are modelled as parameters (`Env`,
`Client`) whose answers are arbitrary, and every call the program makes is
recorded in a trace, so that statements such as "exactly one List call" or
"the namespace handed to the client" can be read off an execution.

Go specifics kept by the model:
* a `(value, error)` result is a pair of options, `none` being Go's `nil`;
* a field access through a nil pointer and a method call on a nil interface
  value end the execution with `Outcome.panic`;
* a nil slice and an empty slice are both the empty list (they print alike
  and have length 0).
-/

namespace DynamicClient

/-! ## Data model -/

/-- Go `error` values; the three request-time kinds named by the API server
plus any other failure. A nil error is `none : Option Error`. -/
inductive Error where
  | NotFound
  | Forbidden
  | Unavailable
  | Other (msg : String)
  deriving DecidableEq, Repr

/-- `context.Context`. The program only ever builds `context.Background()`. -/
inductive Context where
  | Background
  | Derived (parent : Context) (tag : String)
  deriving DecidableEq, Repr

/-- `schema.GroupVersionResource`. -/
structure GroupVersionResource where
  Group : String
  Version : String
  Resource : String
  deriving DecidableEq, Repr

/-- `metav1.ListOptions`; the zero value `metav1.ListOptions{}` is `{}`. -/
structure ListOptions where
  LabelSelector : String := ""
  FieldSelector : String := ""
  Watch : Bool := false
  AllowWatchBookmarks : Bool := false
  ResourceVersion : String := ""
  ResourceVersionMatch : String := ""
  TimeoutSeconds : Option Int := none
  Limit : Int := 0
  Continue : String := ""
  deriving DecidableEq, Repr

/-- The values an `interface{}` leaf of an unstructured object holds here. -/
inductive Value where
  | null
  | bool (b : Bool)
  | int (i : Int)
  | str (s : String)
  deriving DecidableEq, Repr

/-- `unstructured.Unstructured`: a schema-less record, `Object` being the
`map[string]interface{}` as an association list. -/
structure Unstructured where
  Object : List (String × Value)
  deriving DecidableEq, Repr

/-- `unstructured.UnstructuredList`: the list response of the server.
`Continue` is the `metadata.continue` token of the response. -/
structure UnstructuredList where
  Continue : String := ""
  Items : List Unstructured
  deriving DecidableEq, Repr

/-- `dynamic.ResourceInterface`, restricted to the method the program calls. -/
structure ResourceInterface where
  List : Context → ListOptions → Option UnstructuredList × Option Error

/-- `dynamic.NamespaceableResourceInterface`. -/
structure NamespaceableResourceInterface where
  Namespace : String → ResourceInterface

/-- `dynamic.Interface` (a non-nil value of it). -/
structure Client where
  Resource : GroupVersionResource → NamespaceableResourceInterface

/-- `*http.Request`, the fields a printed request shows. -/
structure Request where
  Method : String
  URL : String
  Header : List (String × String) := []
  deriving DecidableEq, Repr

/-- `*url.URL`. -/
structure URL where
  raw : String
  deriving DecidableEq, Repr

/-- What one call of a `Proxy` callback does: the values it returns, the
values it handed to `fmt.Println`, and the request as it is afterwards. -/
structure ProxyResult where
  url : Option URL
  err : Option Error
  printed : List Request
  request : Request
  deriving DecidableEq, Repr

/-- `flowcontrol.RateLimiter` as built by `flowcontrol.NewTokenBucketRateLimiter`:
the sustained rate (permits per second) and the burst capacity. -/
structure RateLimiter where
  qps : ℚ
  burst : Int
  deriving DecidableEq, Repr

/-- `flowcontrol.NewTokenBucketRateLimiter(qps, burst)`. -/
def NewTokenBucketRateLimiter (qps : ℚ) (burst : Int) : RateLimiter :=
  { qps := qps, burst := burst }

/-- `rest.Config` (pointed to by `*rest.Config`): the connection parameters
and the two fields the program sets. -/
structure Config where
  Host : String
  BearerToken : String := ""
  RateLimiter : Option RateLimiter := none
  Proxy : Option (Request → ProxyResult) := none

/-- `clientcmd.ClientConfigLoadingRules`. -/
structure ClientConfigLoadingRules where
  ExplicitPath : String := ""
  deriving DecidableEq, Repr

/-- `clientcmd.ConfigOverrides`; `&clientcmd.ConfigOverrides{}` is `{}`. -/
structure ConfigOverrides where
  CurrentContext : String := ""
  deriving DecidableEq, Repr

/-- The `clientcmd.ClientConfig` value the deferred loader returns, by its answers.
`ClientConfig` is the result of `ClientConfig()`, `Namespace` the namespace
selected in the loaded kubeconfig context, as `Namespace()` reports it. -/
structure DeferredLoadingClientConfig where
  ClientConfig : Option Config × Option Error
  Namespace : String × Bool × Option Error

/-- The world outside the program: what the kubeconfig loader yields for given
loading rules and overrides, and what `dynamic.NewForConfig` answers. -/
structure Env where
  NewNonInteractiveDeferredLoadingClientConfig :
    ClientConfigLoadingRules → ConfigOverrides → DeferredLoadingClientConfig
  NewForConfig : Config → Option Client × Option Error

/-! ## Executions -/

/-- What `fmt.Println` was given. -/
inductive Printed where
  | request (r : Request)
  | workloads (l : List Unstructured)
  deriving DecidableEq, Repr

/-- The calls the program makes on its collaborators, in program order. -/
inductive Event where
  | klogInitFlags
  | flagParse
  | klogFlush
  | callClientConfig
  | callNewForConfig (config : Config)
  | callResource (resource : GroupVersionResource)
  | callNamespace (name : String)
  | callList (ctx : Context) (opts : ListOptions)
  | Println (v : Printed)

/-- How a Go function ends: it returns, or it panics. -/
inductive Outcome (α : Type) where
  | ret (a : α)
  | panic
  deriving DecidableEq, Repr

/-- An execution: the calls made, and how it ended. -/
structure Exec (α : Type) where
  trace : List Event
  outcome : Outcome α

/-- Return without any call. -/
def Exec.pure {α : Type} (a : α) : Exec α := { trace := [], outcome := .ret a }

/-- Sequencing: the second part runs only when the first returned. -/
def Exec.bind {α β : Type} (x : Exec α) (f : α → Exec β) : Exec β :=
  match x.outcome with
  | .ret a => { trace := x.trace ++ (f a).trace, outcome := (f a).outcome }
  | .panic => { trace := x.trace, outcome := .panic }

instance : Monad Exec where
  pure := Exec.pure
  bind := Exec.bind

/-- Record one call. -/
def emit (e : Event) : Exec Unit := { trace := [e], outcome := .ret () }

/-- A runtime panic (nil pointer dereference). -/
def panic {α : Type} : Exec α := { trace := [], outcome := .panic }

/-- Go `defer`: `deferred` runs when `body` ends, also when it panics. -/
def withDefer {α : Type} (deferred : Exec Unit) (body : Exec α) : Exec α :=
  { trace := body.trace ++ deferred.trace, outcome := body.outcome }

/-- Method call `client.Resource(resource)` on an interface value that may be nil. -/
def callResource (client : Option Client) (resource : GroupVersionResource) :
    Exec NamespaceableResourceInterface :=
  match client with
  | none => panic
  | some c => do
    emit (.callResource resource)
    pure (c.Resource resource)

/-- Method call `r.Namespace(name)`. -/
def callNamespace (r : NamespaceableResourceInterface) (name : String) :
    Exec ResourceInterface := do
  emit (.callNamespace name)
  pure (r.Namespace name)

/-- Method call `r.List(ctx, opts)`. -/
def callList (r : ResourceInterface) (ctx : Context) (opts : ListOptions) :
    Exec (Option UnstructuredList × Option Error) := do
  emit (.callList ctx opts)
  pure (r.List ctx opts)

/-! ## The program -/

/-- `kubeConfig()` (main.go 30-34): default loading rules, empty overrides. -/
def kubeConfig (env : Env) : DeferredLoadingClientConfig :=
  let loadingRules : ClientConfigLoadingRules := {}
  let configOverrides : ConfigOverrides := {}
  env.NewNonInteractiveDeferredLoadingClientConfig loadingRules configOverrides

/-- The function literal assigned to `config.Proxy` (main.go 45-48):
print the request, return `nil, nil`. -/
def printRequest (request : Request) : ProxyResult :=
  { printed := [request], url := none, err := none, request := request }

/-- `newClient()` (main.go 38-60). The two assignments go through the pointer
`config` before `err` is looked at. -/
def newClient (env : Env) : Exec (Option Client × Option Error) := do
  let kubeConfig := kubeConfig env
  emit .callClientConfig
  let (config, err) := kubeConfig.ClientConfig
  match config with
  | none =>
    -- config.RateLimiter = ... assigns through a nil pointer
    panic
  | some config =>
    let config : Config :=
      { config with RateLimiter := some (NewTokenBucketRateLimiter 1 1) }
    let config : Config := { config with Proxy := some printRequest }
    match err with
    | some err => pure (none, some err)
    | none =>
      emit (.callNewForConfig config)
      let (dynClient, err) := env.NewForConfig config
      match err with
      | some err => pure (none, some err)
      | none => pure (dynClient, none)

/-- `ListWorkloads(ctx, client, namespace)` (main.go 63-71). -/
def ListWorkloads (ctx : Context) (client : Option Client) (namespace_ : String) :
    Exec (List Unstructured × Option Error) := do
  let resource : GroupVersionResource :=
    { Group := "carto.run", Version := "v1alpha1", Resource := "workloads" }
  let r ← callResource client resource
  let r ← callNamespace r namespace_
  let (list, err) ← callList r ctx {}
  match err with
  | some err => pure ([], some err)
  | none =>
    -- list.Items
    match list with
    | none => panic
    | some list => pure (list.Items, none)

/-- `main()` (main.go 73-84). -/
def main (env : Env) : Exec Unit :=
  let ctx := Context.Background
  Exec.bind (emit .klogInitFlags) fun _ =>
  withDefer (emit .klogFlush) do
    emit .flagParse
    let (c, _) ← newClient env
    let (l, _) ← ListWorkloads ctx c "default"
    emit (.Println (.workloads l))

/-! ## A paginating server -/

/-- The continuation token that names page `i`; the empty token names the
first page. -/
def pageToken (i : Nat) : String := String.mk (List.replicate i 'c')

/-- A server that holds its objects in `pages` and serves one page per List
request: the request's `Continue` token selects the page, and every response
but the last carries the token of the next page. -/
def pagedClient (pages : List (List Unstructured)) : Client :=
  { Resource := fun _ =>
    { Namespace := fun _ =>
      { List := fun _ opts =>
          let i := opts.Continue.length
          (some { Continue := if i + 1 < pages.length then pageToken (i + 1) else ""
                  Items := pages.getD i [] }, none) } } }

/-- The listing the specification describes, for comparison with the code:
follow continuation tokens until a response carries none (at most `fuel`
further requests) and concatenate the pages in the order served. -/
def specListAllPages (r : ResourceInterface) (ctx : Context) :
    Nat → String → Option (List Unstructured)
  | 0, _ => none
  | fuel + 1, token =>
    match r.List ctx { Continue := token } with
    | (some page, none) =>
      if page.Continue = "" then some page.Items
      else (specListAllPages r ctx fuel page.Continue).map (page.Items ++ ·)
    | _ => none

/-! ## The token bucket -/

/-- Modelled from the spec: the state of the token bucket of section 4.1 (the
limiter behind `flowcontrol.NewTokenBucketRateLimiter` is `client-go` code,
absent from the sources): the counter of available permits and the time of
its last update, in seconds. -/
structure Bucket where
  tokens : ℚ
  clock : ℚ
  deriving DecidableEq, Repr

/-- Modelled from the spec: a bucket starts full, its counter at `burst`. -/
def Bucket.full (p : RateLimiter) : Bucket :=
  { tokens := p.burst, clock := 0 }

/-- Modelled from the spec: "a counter capped at `burst`, replenished
continuously at `rate` tokens/second", brought up to time `t`. -/
def Bucket.replenish (p : RateLimiter) (s : Bucket) (t : ℚ) : Bucket :=
  { tokens := min (p.burst : ℚ) (s.tokens + p.qps * (t - s.clock)), clock := t }

/-- Modelled from the spec: one outbound request issued at time `t`. The
counter is "decremented by one per outbound request; a request with zero
available tokens blocks until the next token accrues". The clock of the
result is the time at which the request is let through. -/
def Bucket.take (p : RateLimiter) (s : Bucket) (t : ℚ) : Bucket :=
  let s := s.replenish p t
  if 1 ≤ s.tokens then { tokens := s.tokens - 1, clock := t }
  else { tokens := 0, clock := t + (1 - s.tokens) / p.qps }

/-- Modelled from the spec: `n` requests issued back to back, in zero elapsed
time on the caller's side, against a bucket that is full at time 0: each
request is issued the moment the one before it was let through. -/
def backToBack (p : RateLimiter) : Nat → Bucket
  | 0 => Bucket.full p
  | n + 1 => (backToBack p n).take p (backToBack p n).clock

/-- Modelled from the spec: the time at which the `n`-th of `n` back to back
requests is let through. -/
def grantedAt (p : RateLimiter) (n : Nat) : ℚ := (backToBack p n).clock

/-! ## Theorems -/

/-- The resource coordinate `ListWorkloads` lists. -/
theorem ListWorkloads_unfold (ctx : Context) (c : Client) (namespace_ : String) :
    ListWorkloads ctx (some c) namespace_ =
      { trace := [Event.callResource ⟨"carto.run", "v1alpha1", "workloads"⟩,
                  Event.callNamespace namespace_, Event.callList ctx {}]
        outcome :=
          match ((c.Resource ⟨"carto.run", "v1alpha1", "workloads"⟩).Namespace
                  namespace_).List ctx {} with
          | (_, some err) => Outcome.ret ([], some err)
          | (some list, none) => Outcome.ret (list.Items, none)
          | (none, none) => Outcome.panic } := by
  generalize hq :
    ((c.Resource ⟨"carto.run", "v1alpha1", "workloads"⟩).Namespace namespace_).List ctx {} = q
  obtain ⟨l, err⟩ := q
  cases err with
  | some e =>
    simp [ListWorkloads, callResource, callNamespace, callList, emit, bind, Exec.bind,
      pure, Exec.pure, hq]
  | none =>
    cases l with
    | none =>
      simp [ListWorkloads, callResource, callNamespace, callList, emit, bind, Exec.bind,
        pure, Exec.pure, panic, hq]
    | some l =>
      simp [ListWorkloads, callResource, callNamespace, callList, emit, bind, Exec.bind,
        pure, Exec.pure, hq]

/-- With a nil client `ListWorkloads` panics before any call. -/
theorem ListWorkloads_nil_client (ctx : Context) (namespace_ : String) :
    ListWorkloads ctx none namespace_ = { trace := [], outcome := Outcome.panic } := by
  simp [ListWorkloads, callResource, panic, bind, Exec.bind]

/-- The execution of `newClient` when the loader answers with a config. -/
theorem newClient_unfold (env : Env) (cfg : Config) (err : Option Error)
    (h : (kubeConfig env).ClientConfig = (some cfg, err)) :
    newClient env =
      match err with
      | some e => { trace := [Event.callClientConfig], outcome := Outcome.ret (none, some e) }
      | none =>
        { trace := [Event.callClientConfig,
                    Event.callNewForConfig
                      { cfg with RateLimiter := some (NewTokenBucketRateLimiter 1 1),
                                 Proxy := some printRequest }]
          outcome :=
            match env.NewForConfig
                  { cfg with RateLimiter := some (NewTokenBucketRateLimiter 1 1),
                             Proxy := some printRequest } with
            | (_, some e) => Outcome.ret (none, some e)
            | (dynClient, none) => Outcome.ret (dynClient, none) } := by
  cases err with
  | some e => simp [newClient, h, emit, bind, Exec.bind, pure, Exec.pure]
  | none =>
    generalize hq : env.NewForConfig
      { cfg with RateLimiter := some (NewTokenBucketRateLimiter 1 1),
                 Proxy := some printRequest } = q
    obtain ⟨c, e⟩ := q
    cases e <;> simp [newClient, h, hq, emit, bind, Exec.bind, pure, Exec.pure]

/-- The execution of `newClient` when the loader answers with a nil config. -/
theorem newClient_nil_config (env : Env) (err : Option Error)
    (h : (kubeConfig env).ClientConfig = (none, err)) :
    newClient env = { trace := [Event.callClientConfig], outcome := Outcome.panic } := by
  simp [newClient, h, emit, panic, bind, Exec.bind]

/-- Every config `newClient` hands to `dynamic.NewForConfig` is the loaded
config with the rate limiter and the proxy hook set on it. -/
theorem newClient_config_built (env : Env) (cfg : Config)
    (h : Event.callNewForConfig cfg ∈ (newClient env).trace) :
    ∃ cfg0 : Config, (kubeConfig env).ClientConfig = (some cfg0, none) ∧
      cfg = { cfg0 with RateLimiter := some (NewTokenBucketRateLimiter 1 1),
                        Proxy := some printRequest } := by
  generalize hq : (kubeConfig env).ClientConfig = q at *
  obtain ⟨c0, err⟩ := q
  cases c0 with
  | none =>
    rw [newClient_nil_config env err hq] at h
    simp at h
  | some cfg0 =>
    rw [newClient_unfold env cfg0 err hq] at h
    cases err with
    | some e => simp at h
    | none =>
      simp at h
      exact ⟨cfg0, rfl, h⟩

/-- While the burst lasts, back to back requests pass at time 0. -/
theorem backToBack_within_burst (r : ℚ) (b j : Nat) (hj : j ≤ b) :
    backToBack (NewTokenBucketRateLimiter r b) j = { tokens := (b : ℚ) - j, clock := 0 } := by
  induction j with
  | zero => simp [backToBack, Bucket.full, NewTokenBucketRateLimiter]
  | succ n ih =>
    have hn : n ≤ b := Nat.le_of_succ_le hj
    have hlt : ((n : ℚ) + 1) ≤ (b : ℚ) := by exact_mod_cast hj
    have h1 : (1 : ℚ) ≤ (b : ℚ) - n := by linarith
    have hmin : min (b : ℚ) ((b : ℚ) - n) = (b : ℚ) - n :=
      min_eq_right (by linarith [(Nat.cast_nonneg n : (0 : ℚ) ≤ (n : ℚ))])
    simp only [backToBack]
    rw [ih hn]
    simp only [Bucket.take, Bucket.replenish, NewTokenBucketRateLimiter]
    simp only [Int.cast_natCast, sub_self, mul_zero, add_zero, hmin, h1, if_true]
    simp only [Nat.cast_add, Nat.cast_one]
    congr 1
    ring

/-- Once the burst is spent, the `i`-th further request passes at `i / r`. -/
theorem backToBack_beyond_burst (r : ℚ) (b i : Nat) :
    backToBack (NewTokenBucketRateLimiter r b) (b + i) = { tokens := 0, clock := (i : ℚ) / r } := by
  induction i with
  | zero =>
    have h := backToBack_within_burst r b b (le_refl b)
    simpa using h
  | succ n ih =>
    have hmin : min (b : ℚ) 0 = 0 := min_eq_right (Nat.cast_nonneg b)
    have hstep : b + (n + 1) = (b + n) + 1 := by omega
    rw [hstep]
    simp only [backToBack]
    rw [ih]
    simp only [Bucket.take, Bucket.replenish, NewTokenBucketRateLimiter]
    simp only [Int.cast_natCast, sub_self, mul_zero, add_zero, hmin]
    have hno : ¬ ((1 : ℚ) ≤ 0) := by norm_num
    simp only [hno, if_false, sub_zero, Nat.cast_add, Nat.cast_one]
    congr 1
    ring

/-- C1 (code defect): when `kubeConfig().ClientConfig()` answers `(nil, err)`,
`newClient` does not return `(nil, err)`: it panics on the assignment to
`config.RateLimiter`, before the error check is reached, and
`dynamic.NewForConfig` is never called. -/
theorem newClient_panics_on_config_error (e : Error) (ns : String × Bool × Option Error)
    (newForConfig : Config → Option Client × Option Error) :
    (newClient ⟨fun _ _ => ⟨(none, some e), ns⟩, newForConfig⟩).outcome = Outcome.panic
    ∧ (newClient ⟨fun _ _ => ⟨(none, some e), ns⟩, newForConfig⟩).trace
        = [Event.callClientConfig] := by
  constructor <;> rfl

/-- C2: if the List call answers with a non-nil error `e`, `ListWorkloads`
returns `(nil, e)` with that same `e`, after exactly one List call (no retry);
and whenever `ListWorkloads` returns a nil error, the List call had answered
with a nil error. -/
theorem ListWorkloads_propagates_error (ctx : Context) (c : Client) (namespace_ : String)
    (l : Option UnstructuredList) (e : Error)
    (h : ((c.Resource ⟨"carto.run", "v1alpha1", "workloads"⟩).Namespace namespace_).List ctx {}
          = (l, some e)) :
    (ListWorkloads ctx (some c) namespace_).outcome = Outcome.ret ([], some e)
    ∧ ((ListWorkloads ctx (some c) namespace_).trace.filter
          (fun ev => match ev with | Event.callList _ _ => true | _ => false)).length = 1
    ∧ ∀ (ctx2 : Context) (client2 : Option Client) (ns2 : String) (items : List Unstructured),
        (ListWorkloads ctx2 client2 ns2).outcome = Outcome.ret (items, none) →
        ∃ c2 l2, client2 = some c2 ∧
          ((c2.Resource ⟨"carto.run", "v1alpha1", "workloads"⟩).Namespace ns2).List ctx2 {}
            = (some l2, none) := by
  refine ⟨?_, ?_, ?_⟩
  · simp [ListWorkloads, callResource, callNamespace, callList, emit, bind, Exec.bind,
      pure, Exec.pure, h]
  · simp [ListWorkloads, callResource, callNamespace, callList, emit, bind, Exec.bind,
      pure, Exec.pure, h]
  · intro ctx2 client2 ns2 items hret
    cases client2 with
    | none =>
      simp [ListWorkloads, callResource, panic, bind, Exec.bind] at hret
    | some c2 =>
      refine ⟨c2, ?_⟩
      generalize hq :
        ((c2.Resource ⟨"carto.run", "v1alpha1", "workloads"⟩).Namespace ns2).List ctx2 {} = q
          at hret ⊢
      simp only [ListWorkloads, callResource, callNamespace, callList, emit, bind, Exec.bind,
        pure, Exec.pure, hq] at hret
      obtain ⟨l2, err2⟩ := q
      cases err2 with
      | some e2 => simp at hret
      | none =>
        cases l2 with
        | none => simp [panic] at hret
        | some l2 => exact ⟨l2, rfl, rfl⟩

/-- Witness of C2: a client whose List call answers Forbidden. -/
theorem ListWorkloads_propagates_error_witness :
    (ListWorkloads Context.Background
        (some ⟨fun _ => ⟨fun _ => ⟨fun _ _ => (none, some Error.Forbidden)⟩⟩⟩) "default").outcome
      = Outcome.ret ([], some Error.Forbidden) :=
  (ListWorkloads_propagates_error Context.Background
      ⟨fun _ => ⟨fun _ => ⟨fun _ _ => (none, some Error.Forbidden)⟩⟩⟩ "default"
      none Error.Forbidden rfl).1

/-- C3: when the List call succeeds with response `l`, `ListWorkloads` returns
exactly `l.Items` (same elements, same order) with a nil error; when the
server reports no object, that is the empty sequence and not an error. -/
theorem ListWorkloads_returns_items (ctx : Context) (c : Client) (namespace_ : String)
    (l : UnstructuredList)
    (h : ((c.Resource ⟨"carto.run", "v1alpha1", "workloads"⟩).Namespace namespace_).List ctx {}
          = (some l, none)) :
    (ListWorkloads ctx (some c) namespace_).outcome = Outcome.ret (l.Items, none)
    ∧ (l.Items.length = 0 →
        (ListWorkloads ctx (some c) namespace_).outcome = Outcome.ret ([], none)) := by
  have h1 : (ListWorkloads ctx (some c) namespace_).outcome = Outcome.ret (l.Items, none) := by
    rw [ListWorkloads_unfold, h]
  refine ⟨h1, fun h0 => ?_⟩
  rw [h1, List.length_eq_zero.mp h0]

/-- Witness of C3: a server with two objects, and a server with none. -/
theorem ListWorkloads_returns_items_witness :
    (ListWorkloads Context.Background
        (some ⟨fun _ => ⟨fun _ => ⟨fun _ _ =>
          (some { Items := [⟨[("name", Value.str "a")]⟩, ⟨[("name", Value.str "b")]⟩] },
            none)⟩⟩⟩) "default").outcome
      = Outcome.ret ([⟨[("name", Value.str "a")]⟩, ⟨[("name", Value.str "b")]⟩], none)
    ∧ (ListWorkloads Context.Background
        (some ⟨fun _ => ⟨fun _ => ⟨fun _ _ => (some { Items := [] }, none)⟩⟩⟩) "").outcome
      = Outcome.ret ([], none) :=
  ⟨(ListWorkloads_returns_items Context.Background
      ⟨fun _ => ⟨fun _ => ⟨fun _ _ =>
        (some { Items := [⟨[("name", Value.str "a")]⟩, ⟨[("name", Value.str "b")]⟩] },
          none)⟩⟩⟩ "default"
      { Items := [⟨[("name", Value.str "a")]⟩, ⟨[("name", Value.str "b")]⟩] } rfl).1,
   (ListWorkloads_returns_items Context.Background
      ⟨fun _ => ⟨fun _ => ⟨fun _ _ => (some { Items := [] }, none)⟩⟩⟩ ""
      { Items := [] } rfl).2 rfl⟩

/-- C8, as stated, fails: the claim holds of every call, but on the nil client
that `main` passes on when `newClient` has failed, `ListWorkloads` panics at
`client.Resource(...)` and makes no List call at all. -/
theorem ListWorkloads_nil_client_makes_no_list_call :
    (ListWorkloads Context.Background none "default").outcome = Outcome.panic
    ∧ (ListWorkloads Context.Background none "default").trace = []
    ∧ ((ListWorkloads Context.Background none "default").trace.filter
          (fun ev => match ev with | Event.callList _ _ => true | _ => false)).length ≠ 1 := by
  rw [ListWorkloads_nil_client]
  simp

/-- C8, amended: for every context, every non-nil client and every namespace
string (the empty one included) the calls `ListWorkloads` makes are exactly
the one chained expression
`Resource(carto.run/v1alpha1 workloads).Namespace(namespace).List(ctx, {})`:
exactly one List call, on that coordinate, scoped to the given namespace, with
the given context and the empty list options, and no other client operation,
whatever the server answers. -/
theorem ListWorkloads_single_list_call (ctx : Context) (client : Option Client)
    (namespace_ : String) (h : client ≠ none) :
    (ListWorkloads ctx client namespace_).trace =
      [Event.callResource { Group := "carto.run", Version := "v1alpha1", Resource := "workloads" },
       Event.callNamespace namespace_,
       Event.callList ctx {}]
    ∧ ((ListWorkloads ctx client namespace_).trace.filter
          (fun ev => match ev with | Event.callList _ _ => true | _ => false)).length = 1 := by
  cases client with
  | none => exact absurd rfl h
  | some c =>
    rw [ListWorkloads_unfold]
    simp

/-- Witness of C8: a cluster-wide query (empty namespace) on a client whose
server answers Unavailable. -/
theorem ListWorkloads_single_list_call_witness :
    (ListWorkloads (Context.Derived Context.Background "timeout")
        (some ⟨fun _ => ⟨fun _ => ⟨fun _ _ => (none, some Error.Unavailable)⟩⟩⟩) "").trace =
      [Event.callResource { Group := "carto.run", Version := "v1alpha1", Resource := "workloads" },
       Event.callNamespace "",
       Event.callList (Context.Derived Context.Background "timeout") {}] :=
  (ListWorkloads_single_list_call (Context.Derived Context.Background "timeout")
      (some ⟨fun _ => ⟨fun _ => ⟨fun _ _ => (none, some Error.Unavailable)⟩⟩⟩) ""
      (by simp)).1

/-- C10: when the configuration resolves, `newClient` calls
`dynamic.NewForConfig` once, on the loaded config with the rate limiter and
the proxy hook set, and its result is decided by that call alone: an error
`e` gives `(nil, e)`, no error gives `(client, nil)`. For no environment does
`newClient` return both a client and an error. -/
theorem newClient_result_from_NewForConfig (env : Env) (cfg : Config)
    (h : (kubeConfig env).ClientConfig = (some cfg, none)) :
    (newClient env).trace =
        [Event.callClientConfig,
         Event.callNewForConfig
           { cfg with RateLimiter := some (NewTokenBucketRateLimiter 1 1),
                      Proxy := some printRequest }]
    ∧ (∀ c e, env.NewForConfig
                { cfg with RateLimiter := some (NewTokenBucketRateLimiter 1 1),
                           Proxy := some printRequest } = (c, some e) →
          (newClient env).outcome = Outcome.ret (none, some e))
    ∧ (∀ c, env.NewForConfig
              { cfg with RateLimiter := some (NewTokenBucketRateLimiter 1 1),
                         Proxy := some printRequest } = (c, none) →
          (newClient env).outcome = Outcome.ret (c, none))
    ∧ ∀ (env2 : Env) (c : Client) (e : Error),
        (newClient env2).outcome ≠ Outcome.ret (some c, some e) := by
  refine ⟨?_, ?_, ?_, ?_⟩
  · rw [newClient_unfold env cfg none h]
  · intro c e hn
    rw [newClient_unfold env cfg none h]
    simp [hn]
  · intro c hn
    rw [newClient_unfold env cfg none h]
    simp [hn]
  · intro env2 c e
    generalize hq : (kubeConfig env2).ClientConfig = q
    obtain ⟨c0, err⟩ := q
    cases c0 with
    | none =>
      rw [newClient_nil_config env2 err hq]
      simp
    | some cfg0 =>
      rw [newClient_unfold env2 cfg0 err hq]
      cases err with
      | some e0 => simp
      | none =>
        generalize env2.NewForConfig
          { cfg0 with RateLimiter := some (NewTokenBucketRateLimiter 1 1),
                      Proxy := some printRequest } = q2
        obtain ⟨c2, e2⟩ := q2
        cases e2 <;> simp

/-- Witness of C10: a loader that answers with a config, and a `NewForConfig`
that refuses it. -/
theorem newClient_result_from_NewForConfig_witness :
    (newClient ⟨fun _ _ => ⟨(some { Host := "https://10.0.0.1:6443" }, none),
                            ("default", false, none)⟩,
                fun _ => (none, some (Error.Other "host must be a URL"))⟩).outcome
      = Outcome.ret (none, some (Error.Other "host must be a URL")) :=
  (newClient_result_from_NewForConfig
      ⟨fun _ _ => ⟨(some { Host := "https://10.0.0.1:6443" }, none),
                   ("default", false, none)⟩,
       fun _ => (none, some (Error.Other "host must be a URL"))⟩
      { Host := "https://10.0.0.1:6443" } rfl).2.1 none _ rfl

/-- C4, as stated, fails: against a server that splits three objects across
two pages, following the continuation tokens yields all three, while
`ListWorkloads` makes one List call and returns the first page only. -/
theorem ListWorkloads_does_not_exhaust_pages :
    specListAllPages
        (((pagedClient [[⟨[("name", Value.str "a")]⟩],
                        [⟨[("name", Value.str "b")]⟩, ⟨[("name", Value.str "c")]⟩]]).Resource
            ⟨"carto.run", "v1alpha1", "workloads"⟩).Namespace "default")
        Context.Background 2 ""
      = some [⟨[("name", Value.str "a")]⟩, ⟨[("name", Value.str "b")]⟩,
              ⟨[("name", Value.str "c")]⟩]
    ∧ (ListWorkloads Context.Background
        (some (pagedClient [[⟨[("name", Value.str "a")]⟩],
                            [⟨[("name", Value.str "b")]⟩, ⟨[("name", Value.str "c")]⟩]]))
        "default").outcome
      = Outcome.ret ([⟨[("name", Value.str "a")]⟩], none)
    ∧ (ListWorkloads Context.Background
        (some (pagedClient [[⟨[("name", Value.str "a")]⟩],
                            [⟨[("name", Value.str "b")]⟩, ⟨[("name", Value.str "c")]⟩]]))
        "default").outcome
      ≠ Outcome.ret ([⟨[("name", Value.str "a")]⟩, ⟨[("name", Value.str "b")]⟩,
                      ⟨[("name", Value.str "c")]⟩], none) := by
  refine ⟨by decide, by decide, by decide⟩

/-- C4, amended: against a server that serves its objects in pages,
`ListWorkloads` issues one List request, with empty options (no limit, no
continuation token), and returns the objects of that one response, the first
page, in the order served; the continuation token of the response is not
followed. -/
theorem ListWorkloads_returns_first_page (ctx : Context) (namespace_ : String)
    (page : List Unstructured) (more : List (List Unstructured)) :
    (ListWorkloads ctx (some (pagedClient (page :: more))) namespace_).outcome
      = Outcome.ret (page, none)
    ∧ (ListWorkloads ctx (some (pagedClient (page :: more))) namespace_).trace
      = [Event.callResource ⟨"carto.run", "v1alpha1", "workloads"⟩,
         Event.callNamespace namespace_,
         Event.callList ctx { Limit := 0, Continue := "" }] := by
  constructor
  · rw [ListWorkloads_unfold]
    simp [pagedClient]
  · rw [ListWorkloads_unfold]

/-- C5 (code defect): a failure of `newClient` is not turned into an empty
result. When `dynamic.NewForConfig` fails, `main` passes the nil client on to
`ListWorkloads` and panics there; when the loader fails, `main` panics inside
`newClient`. In both runs nothing is printed. A failure of the List call alone
is swallowed as the claim says: `main` returns, having printed the empty list. -/
theorem main_panics_when_newClient_fails (e : Error) (cfg : Config)
    (ns : String × Bool × Option Error)
    (newForConfig : Config → Option Client × Option Error) (l : Option UnstructuredList) :
    (main ⟨fun _ _ => ⟨(some cfg, none), ns⟩, fun _ => (none, some e)⟩).outcome = Outcome.panic
    ∧ (main ⟨fun _ _ => ⟨(some cfg, none), ns⟩, fun _ => (none, some e)⟩).trace
        = [Event.klogInitFlags, Event.flagParse, Event.callClientConfig,
           Event.callNewForConfig
             { cfg with RateLimiter := some (NewTokenBucketRateLimiter 1 1),
                        Proxy := some printRequest },
           Event.klogFlush]
    ∧ (main ⟨fun _ _ => ⟨(none, some e), ns⟩, newForConfig⟩).outcome = Outcome.panic
    ∧ (main ⟨fun _ _ => ⟨(none, some e), ns⟩, newForConfig⟩).trace
        = [Event.klogInitFlags, Event.flagParse, Event.callClientConfig, Event.klogFlush]
    ∧ (main ⟨fun _ _ => ⟨(some cfg, none), ns⟩,
             fun _ => (some ⟨fun _ => ⟨fun _ => ⟨fun _ _ => (l, some e)⟩⟩⟩, none)⟩).outcome
        = Outcome.ret ()
    ∧ Event.Println (Printed.workloads []) ∈
        (main ⟨fun _ _ => ⟨(some cfg, none), ns⟩,
               fun _ => (some ⟨fun _ => ⟨fun _ => ⟨fun _ _ => (l, some e)⟩⟩⟩, none)⟩).trace := by
  have h1 := newClient_unfold ⟨fun _ _ => ⟨(some cfg, none), ns⟩, fun _ => (none, some e)⟩
    cfg none rfl
  have h2 := newClient_nil_config ⟨fun _ _ => ⟨(none, some e), ns⟩, newForConfig⟩ (some e) rfl
  have h3 := newClient_unfold ⟨fun _ _ => ⟨(some cfg, none), ns⟩,
    fun _ => (some ⟨fun _ => ⟨fun _ => ⟨fun _ _ => (l, some e)⟩⟩⟩, none)⟩ cfg none rfl
  simp only at h1 h3
  refine ⟨?_, ?_, ?_, ?_, ?_, ?_⟩
  · simp [main, withDefer, Exec.bind, bind, emit, h1, ListWorkloads_nil_client]
  · simp [main, withDefer, Exec.bind, bind, emit, h1, ListWorkloads_nil_client]
  · simp [main, withDefer, Exec.bind, bind, emit, h2]
  · simp [main, withDefer, Exec.bind, bind, emit, h2]
  · simp [main, withDefer, Exec.bind, bind, emit, h3, ListWorkloads_unfold]
  · simp [main, withDefer, Exec.bind, bind, emit, h3, ListWorkloads_unfold]

/-- C6: every config `newClient` hands to `dynamic.NewForConfig` carries a
`Proxy` callback that, for every request, returns a nil URL and a nil error,
prints that request and nothing else, and leaves the request as it was. -/
theorem newClient_proxy_observes_only (env : Env) (cfg : Config)
    (h : Event.callNewForConfig cfg ∈ (newClient env).trace) :
    ∃ proxy : Request → ProxyResult, cfg.Proxy = some proxy ∧
      ∀ request : Request,
        (proxy request).url = none ∧ (proxy request).err = none
        ∧ (proxy request).request = request ∧ (proxy request).printed = [request] := by
  obtain ⟨cfg0, _, hcfg⟩ := newClient_config_built env cfg h
  subst hcfg
  exact ⟨printRequest, rfl, fun request => ⟨rfl, rfl, rfl, rfl⟩⟩

/-- Witness of C6: a run of `newClient` that reaches `dynamic.NewForConfig`,
the loaded config already carrying a redirecting proxy. -/
theorem newClient_proxy_observes_only_witness :
    ∃ proxy : Request → ProxyResult,
      (some printRequest : Option (Request → ProxyResult)) = some proxy ∧
      ∀ request : Request,
        (proxy request).url = none ∧ (proxy request).err = none
        ∧ (proxy request).request = request ∧ (proxy request).printed = [request] :=
  newClient_proxy_observes_only
    ⟨fun _ _ => ⟨(some { Host := "https://10.0.0.1:6443",
                         Proxy := some fun r => ⟨some ⟨"http://proxy:3128"⟩, none, [], r⟩ },
                   none), ("default", false, none)⟩,
     fun _ => (some (pagedClient [[]]), none)⟩
    { Host := "https://10.0.0.1:6443",
      RateLimiter := some (NewTokenBucketRateLimiter 1 1),
      Proxy := some printRequest }
    (by
      rw [newClient_unfold
        ⟨fun _ _ => ⟨(some { Host := "https://10.0.0.1:6443",
                             Proxy := some fun r => ⟨some ⟨"http://proxy:3128"⟩, none, [], r⟩ },
                       none), ("default", false, none)⟩,
         fun _ => (some (pagedClient [[]]), none)⟩
        { Host := "https://10.0.0.1:6443",
          Proxy := some fun r => ⟨some ⟨"http://proxy:3128"⟩, none, [], r⟩ } none rfl]
      simp)

/-- C9 (code defect): the namespace of the kubeconfig is never read. Whatever
namespace the loaded kubeconfig context selects, and whatever config and
client are obtained, the one namespace `main` hands to the client is the
literal "default". -/
theorem main_lists_in_default_namespace (cfg : Config) (selected : String) (found : Bool)
    (nserr : Option Error) (c : Client) (name : String) :
    Event.callNamespace name ∈
        (main ⟨fun _ _ => ⟨(some cfg, none), (selected, found, nserr)⟩,
               fun _ => (some c, none)⟩).trace
      ↔ name = "default" := by
  have hn := newClient_unfold
    ⟨fun _ _ => ⟨(some cfg, none), (selected, found, nserr)⟩, fun _ => (some c, none)⟩
    cfg none rfl
  simp only at hn
  simp only [main, withDefer, Exec.bind, bind, emit, hn, ListWorkloads_unfold]
  generalize ((c.Resource ⟨"carto.run", "v1alpha1", "workloads"⟩).Namespace
        "default").List Context.Background {} = q
  obtain ⟨l, err⟩ := q
  cases err with
  | some e => simp
  | none => cases l <;> simp

/-- C7: every config `newClient` hands to `dynamic.NewForConfig` carries the
token bucket limiter of rate 1 permit/second and burst 1 (so rate > 0 and
burst >= 1). Under the token bucket policy with rate `r > 0` and burst
`b >= 1`, the last of `b + k` back to back requests (`k > 0`) is let through
no earlier than `k / r` seconds; for the program's limiter the `(1 + k)`-th
back to back request is let through no earlier than `k` seconds. -/
theorem newClient_token_bucket (env : Env) (cfg : Config) (r : ℚ) (b k : Nat)
    (h : Event.callNewForConfig cfg ∈ (newClient env).trace)
    (_hr : 0 < r) (_hb : 1 ≤ b) (_hk : 0 < k) :
    (∃ limiter : RateLimiter, cfg.RateLimiter = some limiter
        ∧ limiter = NewTokenBucketRateLimiter 1 1
        ∧ limiter.qps = 1 ∧ limiter.burst = 1 ∧ 0 < limiter.qps ∧ 1 ≤ limiter.burst
        ∧ (k : ℚ) ≤ grantedAt limiter (1 + k))
    ∧ (k : ℚ) / r ≤ grantedAt (NewTokenBucketRateLimiter r b) (b + k) := by
  obtain ⟨cfg0, _, hcfg⟩ := newClient_config_built env cfg h
  subst hcfg
  refine ⟨⟨NewTokenBucketRateLimiter 1 1, rfl, rfl, rfl, rfl, ?_, ?_, ?_⟩, ?_⟩
  · simp [NewTokenBucketRateLimiter]
  · simp [NewTokenBucketRateLimiter]
  · have h1 := backToBack_beyond_burst 1 1 k
    simp only [Nat.cast_one] at h1
    simp [grantedAt, h1]
  · simp [grantedAt, backToBack_beyond_burst]

/-- Witness of C7: a run of `newClient` that reaches `dynamic.NewForConfig`;
rate 2, burst 3 and two requests beyond the burst. -/
theorem newClient_token_bucket_witness :
    ((2 : Nat) : ℚ) / 2 ≤ grantedAt (NewTokenBucketRateLimiter 2 (3 : Nat)) (3 + 2) :=
  (newClient_token_bucket
    ⟨fun _ _ => ⟨(some { Host := "https://10.0.0.1:6443" }, none), ("default", false, none)⟩,
     fun _ => (some (pagedClient [[]]), none)⟩
    { Host := "https://10.0.0.1:6443",
      RateLimiter := some (NewTokenBucketRateLimiter 1 1),
      Proxy := some printRequest }
    2 3 2
    (by
      rw [newClient_unfold
        ⟨fun _ _ => ⟨(some { Host := "https://10.0.0.1:6443" }, none),
                     ("default", false, none)⟩,
         fun _ => (some (pagedClient [[]]), none)⟩
        { Host := "https://10.0.0.1:6443" } none rfl]
      simp)
    (by norm_num) (by norm_num) (by norm_num)).2

end DynamicClient
